import Mathlib

/-
  Verification of the task-management backend (Express + Prisma) against its
  natural-language specification.

  The task controller (getTasks, createTask, updateTask, deleteTask) is embedded
  from backend/src/controllers/taskController.ts.  The auth controller and the
  auth middleware sources are not part of the snapshot; they are modelled from
  the spec (sections 4.2 and 4.3), with the behaviour pinned by the repository's
  own tests (authController tests, authMiddleware tests) where the two disagree.

  The Prisma task table is modelled as a list of Task records; each controller
  is a pure function from the caller identity, the request and the store to a
  response together with the new store.  Database-generated values (fresh ids,
  timestamps) are passed as explicit parameters.
-/

namespace TaskApp

/-- A row of the Task table (prisma/schema.prisma).  `status` is a plain string
because the controller performs no enum validation on the value it stores.
Timestamps are modelled as integers. -/
structure Task where
  id : Int
  title : String
  description : Option String
  status : String
  userId : Int
  createdAt : Int
  updatedAt : Int
deriving DecidableEq, Repr

/-- Body of POST /api/tasks (types/task.ts, CreateTaskRequest):
`title: string; description?: string; status?: TaskStatus` — `none` models an
absent (or null) optional field. -/
structure CreateTaskRequest where
  title : String
  description : Option String
  status : Option String
deriving DecidableEq, Repr

/-- Body of PUT /api/tasks/:id (types/task.ts, UpdateTaskRequest).  For
`description` the outer `Option` is field presence (absent vs supplied) and the
inner `Option` is the supplied value (null vs a string), because the controller
distinguishes `description !== undefined` from the value itself. -/
structure UpdateTaskRequest where
  title : Option String
  description : Option (Option String)
  status : Option String
deriving DecidableEq, Repr

/-- A controller response: a created/updated task, a task list, a message body,
or an error body, each with its HTTP status code. -/
inductive TaskResult where
  | ok (status : Nat) (task : Task)
  | list (status : Nat) (tasks : List Task) (total : Nat)
  | msg (status : Nat) (message : String)
  | err (status : Nat) (error : String)
deriving DecidableEq, Repr

/-- The controllers guard with `if (!userId)`, which rejects both a missing
`req.user` and the (JavaScript-falsy) id 0. -/
def falsyUser : Option Int → Bool
  | none => true
  | some n => n == 0

/-- The whitespace characters recognised by JavaScript string trimming and by
parseInt before the sign. -/
def jsSpace (c : Char) : Bool :=
  c == ' ' || c == '\t' || c == '\n' || c == '\r' || c == '\x0b' || c == '\x0c'

/-- Embeds JavaScript `String.prototype.trim`: remove leading and trailing
whitespace.  (Defined over the character list so that it evaluates by kernel
reduction.) -/
def jsTrim (s : String) : String :=
  String.mk (((s.toList.dropWhile jsSpace).reverse.dropWhile jsSpace).reverse)

/-- Embeds the JavaScript expression `description?.trim() || null` used by both
createTask and updateTask: a missing/null description stays null, a description
that trims to the (falsy) empty string becomes null, otherwise the trimmed
string is stored. -/
def normalizeDescription : Option String → Option String
  | none => none
  | some s => if jsTrim s = "" then none else some (jsTrim s)

/-- Embeds `status || 'PENDING'` in createTask: a missing/null status and the
(falsy) empty string both fall back to PENDING; any other string is stored as
given. -/
def statusOrDefault : Option String → String
  | none => "PENDING"
  | some s => if s = "" then "PENDING" else s

def isDecDigit (c : Char) : Bool := '0' ≤ c && c ≤ '9'

def isHexDigit (c : Char) : Bool :=
  isDecDigit c || ('a' ≤ c && c ≤ 'f') || ('A' ≤ c && c ≤ 'F')

def decDigitVal (c : Char) : Nat := c.toNat - '0'.toNat

def hexDigitVal (c : Char) : Nat :=
  if isDecDigit c then decDigitVal c
  else if 'a' ≤ c && c ≤ 'f' then c.toNat - 'a'.toNat + 10
  else c.toNat - 'A'.toNat + 10

/-- After whitespace and sign handling, JavaScript parseInt reads the longest
prefix of digits (hexadecimal after a `0x`/`0X` prefix, decimal otherwise) and
returns NaN when that prefix is empty. -/
def parseIntCore (sgn : Int) (cs : List Char) : Option Int :=
  match cs with
  | '0' :: c :: rest =>
    if c == 'x' || c == 'X' then
      let digits := rest.takeWhile isHexDigit
      if digits.isEmpty then none
      else some (sgn * (Int.ofNat (digits.foldl (fun a d => a * 16 + hexDigitVal d) 0)))
    else
      some (sgn * (Int.ofNat ((('0' :: c :: rest).takeWhile isDecDigit).foldl
        (fun a d => a * 10 + decDigitVal d) 0)))
  | _ =>
    let digits := cs.takeWhile isDecDigit
    if digits.isEmpty then none
    else some (sgn * (Int.ofNat (digits.foldl (fun a d => a * 10 + decDigitVal d) 0)))

/-- Embeds `parseInt(req.params.id)` (default radix): skip leading whitespace,
read an optional sign, then the longest numeric prefix; `none` is NaN. -/
def parseIntJS (s : String) : Option Int :=
  match s.toList.dropWhile jsSpace with
  | '-' :: rest => parseIntCore (-1) rest
  | '+' :: rest => parseIntCore 1 rest
  | cs => parseIntCore 1 cs

/-- Insert a task into a list kept in descending createdAt order. -/
def insertDesc (t : Task) : List Task → List Task
  | [] => [t]
  | u :: us => if u.createdAt ≤ t.createdAt then t :: u :: us else u :: insertDesc t us

/-- `orderBy: { createdAt: 'desc' }` of the findMany call in getTasks. -/
def sortByCreatedAtDesc : List Task → List Task
  | [] => []
  | t :: ts => insertDesc t (sortByCreatedAtDesc ts)

/-- GET /api/tasks (taskController.ts getTasks): reject a falsy caller id with
401, otherwise return the caller's tasks ordered by createdAt descending,
together with their count. -/
def getTasks (user : Option Int) (store : List Task) : TaskResult :=
  if falsyUser user then .err 401 "User not authenticated"
  else
    match user with
    | none => .err 401 "User not authenticated"
    | some uid =>
      let ts := sortByCreatedAtDesc (store.filter (fun t => t.userId == uid))
      .list 200 ts ts.length

/-- The data object handed to `prisma.task.create` in createTask, completed
with the database-generated id and timestamps. -/
def builtTask (uid : Int) (req : CreateTaskRequest) (newId now : Int) : Task :=
  { id := newId
    title := jsTrim req.title
    description := normalizeDescription req.description
    status := statusOrDefault req.status
    userId := uid
    createdAt := now
    updatedAt := now }

/-- POST /api/tasks (taskController.ts createTask): 401 on falsy caller id,
400 "Title is required" when the title is missing or trims to empty, otherwise
persist a task built from the trimmed title, the normalized description,
`status || 'PENDING'` and the caller id, and return it with 201.  `newId` is
the database-generated id and `now` the creation timestamp. -/
def createTask (user : Option Int) (req : CreateTaskRequest) (newId now : Int)
    (store : List Task) : TaskResult × List Task :=
  if falsyUser user then (.err 401 "User not authenticated", store)
  else
    match user with
    | none => (.err 401 "User not authenticated", store)
    | some uid =>
      if jsTrim req.title = "" then (.err 400 "Title is required", store)
      else
        (.ok 201 (builtTask uid req newId now), store ++ [builtTask uid req newId now])

/-- The `where: { id: taskId, userId }` filter of the findFirst ownership
lookup shared by updateTask and deleteTask. -/
def ownedTask (uid tid : Int) (t : Task) : Bool :=
  t.id == tid && t.userId == uid

/-- `title !== undefined && title.trim().length === 0` in updateTask. -/
def emptyProvidedTitle (req : UpdateTaskRequest) : Bool :=
  match req.title with
  | some s => jsTrim s == ""
  | none => false

/-- The update data object of updateTask: each field explicitly supplied in the
request replaces the stored one (title trimmed, description normalized, status
as given); absent fields keep their stored value.  `updatedAt` is refreshed by
the Prisma `@updatedAt` attribute, modelled by the `now` parameter. -/
def applyUpdate (req : UpdateTaskRequest) (now : Int) (t : Task) : Task :=
  { t with
    title := match req.title with | some s => jsTrim s | none => t.title
    description := match req.description with
      | some d => normalizeDescription d
      | none => t.description
    status := match req.status with | some s => s | none => t.status
    updatedAt := now }

/-- PUT /api/tasks/:id (taskController.ts updateTask): 401 on falsy caller id,
400 "Invalid task ID" when parseInt yields NaN, 404 when no task matches both
the id and the caller, 400 "Title cannot be empty" when a supplied title trims
to empty, otherwise write the update (keyed on the id alone, as in the source)
and return the updated task with 200. -/
def updateTask (user : Option Int) (idSeg : String) (req : UpdateTaskRequest)
    (now : Int) (store : List Task) : TaskResult × List Task :=
  if falsyUser user then (.err 401 "User not authenticated", store)
  else
    match user with
    | none => (.err 401 "User not authenticated", store)
    | some uid =>
      match parseIntJS idSeg with
      | none => (.err 400 "Invalid task ID", store)
      | some tid =>
        match store.find? (ownedTask uid tid) with
        | none => (.err 404 "Task not found or access denied", store)
        | some existing =>
          if emptyProvidedTitle req then (.err 400 "Title cannot be empty", store)
          else
            (.ok 200 (applyUpdate req now existing),
             store.map (fun t => if t.id == tid then applyUpdate req now t else t))

/-- DELETE /api/tasks/:id (taskController.ts deleteTask): same id validation and
combined ownership lookup as updateTask; on success the row with that id is
removed and a message body is returned with 200. -/
def deleteTask (user : Option Int) (idSeg : String) (store : List Task) :
    TaskResult × List Task :=
  if falsyUser user then (.err 401 "User not authenticated", store)
  else
    match user with
    | none => (.err 401 "User not authenticated", store)
    | some uid =>
      match parseIntJS idSeg with
      | none => (.err 400 "Invalid task ID", store)
      | some tid =>
        match store.find? (ownedTask uid tid) with
        | none => (.err 404 "Task not found or access denied", store)
        | some _ =>
          (.msg 200 "Task deleted successfully", store.filter (fun t => t.id != tid))

example : parseIntJS "12abc" = some 12 := by decide
example : parseIntJS "abc" = none := by decide
example : parseIntJS "  -7x" = some (-7) := by decide
example : parseIntJS "0x1A" = some 26 := by decide
example : parseIntJS "" = none := by decide

/-- The identity carried by a token (types/auth.ts JWTPayload). -/
structure JWTPayload where
  userId : Int
  username : String
deriving DecidableEq, Repr

/-- Outcome of the auth gate: either a response is written (status and error
body) without calling the downstream handler, or the decoded identity is
attached to the request and control proceeds with no response written. -/
inductive GateResult where
  | reject (status : Nat) (error : String)
  | accept (user : JWTPayload)
deriving DecidableEq, Repr

/-- The seven characters of the literal token prefix. -/
def bearerChars : List Char := ['B', 'e', 'a', 'r', 'e', 'r', ' ']

/-- Character-level core of the token extraction: require the seven prefix
characters, then drop the leading spaces of the remainder; an empty remainder
means no token. -/
def extractTokenChars (l : List Char) : Option (List Char) :=
  if l.take 7 = bearerChars then
    match (l.drop 7).dropWhile (fun c => c == ' ') with
    | [] => none
    | c :: cs => some (c :: cs)
  else none

/-- Modelled from the spec: the middleware source
(backend/src/middleware/authMiddleware.ts, authenticateToken) is not in the
repository snapshot.  Per section 4.2 the token is the content of the
authorization header after the case-sensitive `Bearer ` prefix; the
repository's authMiddleware tests pin the extraction further: leading space
characters of the token segment are consumed while trailing characters
(whitespace included) are preserved verbatim, and a header with nothing but
spaces after the prefix is treated as missing. -/
def extractBearerToken (header : Option String) : Option String :=
  match header with
  | none => none
  | some s => (extractTokenChars s.toList).map String.mk

/-- Modelled from the spec: the auth gate (section 4.2).  A request whose
header yields no token is rejected with 401 "Access token required" without
consulting the verifier; a token the verifier rejects (for any reason) gets
403 "Invalid or expired token"; a verified token attaches the decoded identity
and writes no response. -/
def authenticateToken (verify : String → Option JWTPayload)
    (header : Option String) : GateResult :=
  match extractBearerToken header with
  | none => .reject 401 "Access token required"
  | some tok =>
    match verify tok with
    | none => .reject 403 "Invalid or expired token"
    | some payload => .accept payload

/-- Character-level acceptance condition as the claims word it: the first
seven characters are `Bearer ` and the remainder holds at least one non-space
character. -/
def goodChars (l : List Char) : Bool :=
  l.take 7 == bearerChars && (l.drop 7).any (fun c => c != ' ')

/-- The acceptance condition as the claims word it: the header begins with the
prefix `Bearer ` and is followed by at least one non-space character. -/
def goodAuthHeader : Option String → Bool
  | none => false
  | some s => goodChars s.toList

example : extractBearerToken (some "Bearer tok") = some "tok" := by decide
example : extractBearerToken (some "Bearer   tok   ") = some "tok   " := by decide
example : extractBearerToken (some "Bearer") = none := by decide
example : extractBearerToken (some "InvalidFormat") = none := by decide

/-- A row of the User table (prisma/schema.prisma); `password` holds the
bcrypt hash. -/
structure User where
  id : Int
  username : String
  password : String
deriving DecidableEq, Repr

/-- Response of the account endpoints: token plus public user object on
success, or an error body. -/
inductive AuthResult where
  | ok (status : Nat) (token : String) (id : Int) (username : String)
  | err (status : Nat) (error : String)
deriving DecidableEq, Repr

/-- Modelled from the spec: the account controller source
(backend/src/controllers/authController.ts, login) is not in the repository
snapshot.  Per section 4.3 and the authController tests: both fields must be
present and non-empty (400), an unknown username and a failed hash
verification both answer 401 "Invalid credentials" with nothing distinguishing
the two, and success issues a token for the stored identity. -/
def login (verifyHash : String → String → Bool) (issue : JWTPayload → String)
    (users : List User) (name pass : Option String) : AuthResult :=
  match name, pass with
  | some un, some pw =>
    if un = "" ∨ pw = "" then .err 400 "Username and password are required"
    else
      match users.find? (fun u => u.username == un) with
      | none => .err 401 "Invalid credentials"
      | some u =>
        if verifyHash pw u.password then .ok 200 (issue ⟨u.id, u.username⟩) u.id u.username
        else .err 401 "Invalid credentials"
  | _, _ => .err 400 "Username and password are required"

/-- Modelled from the spec: the account controller source
(backend/src/controllers/authController.ts, register) is not in the repository
snapshot.  Per section 4.3 and the authController tests, in this order: both
fields present and non-empty (400 "Username and password are required"),
password at least 6 characters (400 "Password must be at least 6 characters
long"), username not already taken by a case-sensitive exact match (400
"Username already exists"); then the password is hashed, the user persisted
with a database-generated id, and a token issued. -/
def register (hashPw : String → String) (issue : JWTPayload → String)
    (newId : Int) (users : List User) (name pass : Option String) :
    AuthResult × List User :=
  match name, pass with
  | some un, some pw =>
    if un = "" ∨ pw = "" then (.err 400 "Username and password are required", users)
    else if pw.length < 6 then
      (.err 400 "Password must be at least 6 characters long", users)
    else
      match users.find? (fun u => u.username == un) with
      | some _ => (.err 400 "Username already exists", users)
      | none =>
        (.ok 201 (issue ⟨newId, un⟩) newId un, users ++ [⟨newId, un, hashPw pw⟩])
  | _, _ => (.err 400 "Username and password are required", users)

section Helpers

theorem mem_insertDesc {x t : Task} {l : List Task} :
    x ∈ insertDesc t l ↔ x = t ∨ x ∈ l := by
  induction l with
  | nil => simp [insertDesc]
  | cons a as ih =>
    simp only [insertDesc]
    split
    · simp [List.mem_cons]
    · simp only [List.mem_cons, ih]
      tauto

theorem mem_sortByCreatedAtDesc {x : Task} {l : List Task} :
    x ∈ sortByCreatedAtDesc l ↔ x ∈ l := by
  induction l with
  | nil => simp [sortByCreatedAtDesc]
  | cons a as ih => simp [sortByCreatedAtDesc, mem_insertDesc, ih]

end Helpers

/-- C1: ownership isolation.  For an authenticated caller `u` and any task `t`
in the store owned by someone else (ids being unique, as they are a primary
key): list never returns `t` and only ever returns tasks owned by the caller;
update and delete against any id segment parsing to `t.id` answer 404
"Task not found or access denied" and leave the store — hence `t` — unchanged;
and no update or delete call of caller `u`, whatever its id segment, ever
mutates or removes `t`. -/
theorem ownership_isolation (u : Int) (store : List Task) (t : Task)
    (req : UpdateTaskRequest) (idSeg : String) (now : Int)
    (hu : u ≠ 0) (hmem : t ∈ store) (hown : t.userId ≠ u)
    (huniq : ∀ a ∈ store, ∀ b ∈ store, a.id = b.id → a = b)
    (hid : parseIntJS idSeg = some t.id) :
    (∀ ts n, getTasks (some u) store = .list 200 ts n →
       t ∉ ts ∧ ∀ x ∈ ts, x.userId = u)
    ∧ updateTask (some u) idSeg req now store
        = (.err 404 "Task not found or access denied", store)
    ∧ deleteTask (some u) idSeg store
        = (.err 404 "Task not found or access denied", store)
    ∧ (∀ idSeg2 req2 now2, t ∈ (updateTask (some u) idSeg2 req2 now2 store).2)
    ∧ (∀ idSeg2, t ∈ (deleteTask (some u) idSeg2 store).2) := by
  have hfind : store.find? (ownedTask u t.id) = none := by
    rw [List.find?_eq_none]
    intro x hx hpx
    have hids : x.id = t.id ∧ x.userId = u := by
      simpa [ownedTask] using hpx
    have hxt : x = t := huniq x hx t hmem hids.1
    subst hxt
    exact hown hids.2
  have hforeign : ∀ tid2 w, store.find? (ownedTask u tid2) = some w → t.id ≠ tid2 := by
    intro tid2 w hf hteq
    have hw : ownedTask u tid2 w = true := List.find?_some hf
    have hwmem : w ∈ store := List.mem_of_find?_eq_some hf
    have hwid : w.id = tid2 ∧ w.userId = u := by
      simpa [ownedTask] using hw
    have htw : t = w := huniq t hmem w hwmem (hteq.trans hwid.1.symm)
    rw [htw] at hown
    exact hown hwid.2
  refine ⟨?_, ?_, ?_, ?_, ?_⟩
  · intro ts n hts
    simp only [getTasks, falsyUser, beq_iff_eq, hu, if_false, TaskResult.list.injEq,
      true_and] at hts
    obtain ⟨hts1, -⟩ := hts
    subst hts1
    constructor
    · intro hmem'
      have hx := (List.mem_filter.mp (mem_sortByCreatedAtDesc.mp hmem')).2
      simp only [beq_iff_eq] at hx
      exact hown hx
    · intro x hx
      have hx2 := (List.mem_filter.mp (mem_sortByCreatedAtDesc.mp hx)).2
      simpa [beq_iff_eq] using hx2
  · simp [updateTask, falsyUser, beq_iff_eq, hu, hid, hfind]
  · simp [deleteTask, falsyUser, beq_iff_eq, hu, hid, hfind]
  · intro idSeg2 req2 now2
    rcases hp : parseIntJS idSeg2 with _ | tid2
    · simp [updateTask, falsyUser, beq_iff_eq, hu, hp, hmem]
    · rcases hf : store.find? (ownedTask u tid2) with _ | w
      · simp [updateTask, falsyUser, beq_iff_eq, hu, hp, hf, hmem]
      · have htid : t.id ≠ tid2 := hforeign tid2 w hf
        by_cases he : emptyProvidedTitle req2
        · simp [updateTask, falsyUser, beq_iff_eq, hu, hp, hf, he, hmem]
        · simp only [updateTask, falsyUser, beq_iff_eq, hu, hp, hf, he]
          simp only [if_neg hu, Bool.false_eq_true, if_false]
          refine List.mem_map.mpr ⟨t, hmem, ?_⟩
          simp [htid]
  · intro idSeg2
    rcases hp : parseIntJS idSeg2 with _ | tid2
    · simp [deleteTask, falsyUser, beq_iff_eq, hu, hp, hmem]
    · rcases hf : store.find? (ownedTask u tid2) with _ | w
      · simp [deleteTask, falsyUser, beq_iff_eq, hu, hp, hf, hmem]
      · have htid : t.id ≠ tid2 := hforeign tid2 w hf
        simp only [deleteTask, falsyUser, beq_iff_eq, hu, hp, hf]
        simp only [if_neg hu, Bool.false_eq_true, if_false]
        refine List.mem_filter.mpr ⟨hmem, ?_⟩
        simp [htid]

/-- Witness for C1 at a concrete input: caller 1, a store holding one task of
user 2 with id 7; update on "7" answers 404 and leaves the store unchanged. -/
theorem ownership_isolation_witness :
    updateTask (some 1) "7" { title := some "X", description := none, status := none } 3
        [{ id := 7, title := "A", description := none, status := "PENDING",
           userId := 2, createdAt := 0, updatedAt := 0 }]
      = (.err 404 "Task not found or access denied",
         [{ id := 7, title := "A", description := none, status := "PENDING",
            userId := 2, createdAt := 0, updatedAt := 0 }]) :=
  (ownership_isolation 1
    [{ id := 7, title := "A", description := none, status := "PENDING",
       userId := 2, createdAt := 0, updatedAt := 0 }]
    { id := 7, title := "A", description := none, status := "PENDING",
      userId := 2, createdAt := 0, updatedAt := 0 }
    { title := some "X", description := none, status := none } "7" 3
    (by decide) (by simp) (by decide) (by decide) (by decide)).2.1

/-- C9: update atomicity.  Whenever updateTask answers any error — missing
identity, invalid id, no owned match, or empty supplied title — the store is
returned unchanged; the single write happens only on the success path. -/
theorem update_failure_leaves_store_unchanged (user : Option Int) (idSeg : String)
    (req : UpdateTaskRequest) (now : Int) (store : List Task) (code : Nat) (m : String)
    (hfail : (updateTask user idSeg req now store).1 = .err code m) :
    (updateTask user idSeg req now store).2 = store := by
  rcases user with _ | uid
  · simp [updateTask]
  · by_cases h0 : uid = 0
    · simp [updateTask, falsyUser, h0]
    · rcases hpid : parseIntJS idSeg with _ | tid
      · simp [updateTask, falsyUser, h0, hpid]
      · rcases hfind : store.find? (ownedTask uid tid) with _ | w
        · simp [updateTask, falsyUser, h0, hpid, hfind]
        · by_cases ht : emptyProvidedTitle req
          · simp [updateTask, falsyUser, h0, hpid, hfind, ht]
          · simp [updateTask, falsyUser, h0, hpid, hfind, ht] at hfail

/-- Witness for C9 at a concrete input: an unauthenticated update fails with
401 and returns the empty store unchanged. -/
theorem update_failure_leaves_store_unchanged_witness :
    (updateTask none "1" { title := none, description := none, status := none } 0
      ([] : List Task)).2 = [] :=
  update_failure_leaves_store_unchanged none "1"
    { title := none, description := none, status := none } 0 []
    401 "User not authenticated" rfl

/-- C2 (amended): create for an authenticated caller.  A title that trims to
empty fails with 400 "Title is required" and persists nothing; otherwise the
task appended and returned with 201 carries the trimmed title, a description
that is null when absent or empty after trimming and trimmed otherwise, a
status that is PENDING when omitted or supplied as the empty string and is
stored exactly as supplied otherwise (no enum validation), and the caller's id
as owner. -/
theorem create_task_semantics (uid : Int) (req : CreateTaskRequest)
    (newId now : Int) (store : List Task) (hu : uid ≠ 0) :
    (jsTrim req.title = "" →
      createTask (some uid) req newId now store = (.err 400 "Title is required", store))
    ∧ (jsTrim req.title ≠ "" →
      createTask (some uid) req newId now store
        = (.ok 201 (builtTask uid req newId now), store ++ [builtTask uid req newId now]))
    ∧ (builtTask uid req newId now).title = jsTrim req.title
    ∧ (builtTask uid req newId now).userId = uid
    ∧ (builtTask uid req newId now).id = newId
    ∧ (req.description = none → (builtTask uid req newId now).description = none)
    ∧ (∀ d, req.description = some d → jsTrim d = "" →
        (builtTask uid req newId now).description = none)
    ∧ (∀ d, req.description = some d → jsTrim d ≠ "" →
        (builtTask uid req newId now).description = some (jsTrim d))
    ∧ ((req.status = none ∨ req.status = some "") →
        (builtTask uid req newId now).status = "PENDING")
    ∧ (∀ st, req.status = some st → st ≠ "" →
        (builtTask uid req newId now).status = st) := by
  refine ⟨?_, ?_, rfl, rfl, rfl, ?_, ?_, ?_, ?_, ?_⟩
  · intro he
    simp [createTask, falsyUser, beq_iff_eq, hu, he]
  · intro hne
    simp [createTask, falsyUser, beq_iff_eq, hu, hne]
  · intro h; simp [builtTask, normalizeDescription, h]
  · intro d hd he; simp [builtTask, normalizeDescription, hd, he]
  · intro d hd he; simp [builtTask, normalizeDescription, hd, he]
  · rintro (h | h) <;> simp [builtTask, statusOrDefault, h]
  · intro st hst hne2; simp [builtTask, statusOrDefault, hst, hne2]

/-- Witness for C2 at a concrete input: create with title " Buy milk ",
whitespace-only description and no status persists the trimmed title, a null
description and status PENDING. -/
theorem create_task_semantics_witness :
    createTask (some 1)
      { title := " Buy milk ", description := some "   ", status := none } 5 9 []
      = (.ok 201 (builtTask 1
          { title := " Buy milk ", description := some "   ", status := none } 5 9),
         [builtTask 1
          { title := " Buy milk ", description := some "   ", status := none } 5 9])
    ∧ builtTask 1 { title := " Buy milk ", description := some "   ", status := none } 5 9
      = { id := 5, title := "Buy milk", description := none, status := "PENDING",
          userId := 1, createdAt := 9, updatedAt := 9 } :=
  ⟨(create_task_semantics 1
      { title := " Buy milk ", description := some "   ", status := none } 5 9 []
      (by decide)).2.1 (by decide), by decide⟩

/-- Counterexample for C2 as frozen: a status supplied as the (falsy) empty
string is not stored as given — `status || 'PENDING'` stores "PENDING". -/
theorem create_task_status_counterexample :
    (createTask (some 1) { title := "Test", description := none, status := some "" }
        5 0 []).1
      = .ok 201 { id := 5, title := "Test", description := none, status := "PENDING",
                  userId := 1, createdAt := 0, updatedAt := 0 }
    ∧ ("PENDING" : String) ≠ "" :=
  ⟨by decide, by decide⟩

/-- C3: partial-update semantics.  For an authenticated caller, a valid id and
a matching owned task `w`: a supplied title trimming to empty fails with 400
"Title cannot be empty" and changes nothing; otherwise the returned task is
`applyUpdate req now w`, in which each supplied field replaces the stored one
(title trimmed, description — explicit null included — normalized, status as
given), each omitted field keeps the stored value, and id, ownerId and
createdAt are unchanged. -/
theorem update_field_semantics (uid tid : Int) (idSeg : String)
    (req : UpdateTaskRequest) (now : Int) (store : List Task) (w : Task)
    (hu : uid ≠ 0) (hid : parseIntJS idSeg = some tid)
    (hfound : store.find? (ownedTask uid tid) = some w) :
    ((∃ s, req.title = some s ∧ jsTrim s = "") →
      updateTask (some uid) idSeg req now store = (.err 400 "Title cannot be empty", store))
    ∧ ((∀ s, req.title = some s → jsTrim s ≠ "") →
      (updateTask (some uid) idSeg req now store).1 = .ok 200 (applyUpdate req now w))
    ∧ (applyUpdate req now w).id = w.id
    ∧ (applyUpdate req now w).userId = w.userId
    ∧ (applyUpdate req now w).createdAt = w.createdAt
    ∧ (req.title = none → (applyUpdate req now w).title = w.title)
    ∧ (∀ s, req.title = some s → (applyUpdate req now w).title = jsTrim s)
    ∧ (req.description = none → (applyUpdate req now w).description = w.description)
    ∧ (∀ d, req.description = some d →
        (applyUpdate req now w).description = normalizeDescription d)
    ∧ (req.status = none → (applyUpdate req now w).status = w.status)
    ∧ (∀ st, req.status = some st → (applyUpdate req now w).status = st) := by
  refine ⟨?_, ?_, rfl, rfl, rfl, ?_, ?_, ?_, ?_, ?_, ?_⟩
  · rintro ⟨s, hs, he⟩
    have hempty : emptyProvidedTitle req = true := by
      simp [emptyProvidedTitle, hs, he]
    simp [updateTask, falsyUser, beq_iff_eq, hu, hid, hfound, hempty]
  · intro hne
    have hempty : emptyProvidedTitle req = false := by
      rcases hre : req.title with _ | s
      · simp [emptyProvidedTitle, hre]
      · simp [emptyProvidedTitle, hre, hne s hre]
    simp [updateTask, falsyUser, beq_iff_eq, hu, hid, hfound, hempty]
  · intro h; simp [applyUpdate, h]
  · intro s hs; simp [applyUpdate, hs]
  · intro h; simp [applyUpdate, h]
  · intro d hd; simp [applyUpdate, hd]
  · intro h; simp [applyUpdate, h]
  · intro st hst; simp [applyUpdate, hst]

/-- Witness for C3 at a concrete input: updating only the status of an owned
task yields the task with the new status and everything else — title,
description, id, owner, createdAt — unchanged. -/
theorem update_field_semantics_witness :
    (updateTask (some 1) "7"
        { title := none, description := none, status := some "COMPLETED" } 4
        [{ id := 7, title := "A", description := some "d", status := "PENDING",
           userId := 1, createdAt := 2, updatedAt := 2 }]).1
      = .ok 200 (applyUpdate
          { title := none, description := none, status := some "COMPLETED" } 4
          { id := 7, title := "A", description := some "d", status := "PENDING",
            userId := 1, createdAt := 2, updatedAt := 2 })
    ∧ applyUpdate { title := none, description := none, status := some "COMPLETED" } 4
        { id := 7, title := "A", description := some "d", status := "PENDING",
          userId := 1, createdAt := 2, updatedAt := 2 }
      = { id := 7, title := "A", description := some "d", status := "COMPLETED",
          userId := 1, createdAt := 2, updatedAt := 4 } :=
  ⟨(update_field_semantics 1 7 "7"
      { title := none, description := none, status := some "COMPLETED" } 4
      [{ id := 7, title := "A", description := some "d", status := "PENDING",
         userId := 1, createdAt := 2, updatedAt := 2 }]
      { id := 7, title := "A", description := some "d", status := "PENDING",
        userId := 1, createdAt := 2, updatedAt := 2 }
      (by decide) (by decide) (by decide)).2.1 (by simp), by decide⟩

/-- C8 (amended): for an authenticated caller, an :id segment on which
JavaScript parseInt yields NaN — no leading numeric prefix after optional
whitespace and sign — makes update and delete answer 400 "Invalid task ID"
with the store unchanged, for every store alike (so the response is computed
without consulting the store). -/
theorem invalid_id_rejected (uid : Int) (idSeg : String)
    (req : UpdateTaskRequest) (now : Int) (store : List Task)
    (hu : uid ≠ 0) (hbad : parseIntJS idSeg = none) :
    updateTask (some uid) idSeg req now store = (.err 400 "Invalid task ID", store)
    ∧ deleteTask (some uid) idSeg store = (.err 400 "Invalid task ID", store) := by
  constructor
  · simp [updateTask, falsyUser, beq_iff_eq, hu, hbad]
  · simp [deleteTask, falsyUser, beq_iff_eq, hu, hbad]

/-- Witness for C8 at a concrete input: the segment "abc" is rejected with
400 "Invalid task ID" and the store is untouched. -/
theorem invalid_id_rejected_witness :
    updateTask (some 1) "abc" { title := some "T", description := none, status := none } 0
        ([] : List Task)
      = (.err 400 "Invalid task ID", []) :=
  (invalid_id_rejected 1 "abc" { title := some "T", description := none, status := none }
    0 [] (by decide) (by decide)).1

/-- Counterexample for C8 as frozen: the non-numeric segment "12abc" is parsed
by parseInt as 12, so the request is not answered with 400 "Invalid task ID";
instead the ownership lookup runs (the response depends on the store) and a
matching owned task is updated or deleted. -/
theorem invalid_id_counterexample :
    (updateTask (some 1) "12abc"
        { title := some "New", description := none, status := none } 9 []).1
      = .err 404 "Task not found or access denied"
    ∧ (updateTask (some 1) "12abc"
        { title := some "New", description := none, status := none } 9
        [{ id := 12, title := "Old", description := none, status := "PENDING",
           userId := 1, createdAt := 0, updatedAt := 0 }]).1
      = .ok 200 { id := 12, title := "New", description := none, status := "PENDING",
                  userId := 1, createdAt := 0, updatedAt := 9 }
    ∧ deleteTask (some 1) "12abc"
        [{ id := 12, title := "Old", description := none, status := "PENDING",
           userId := 1, createdAt := 0, updatedAt := 0 }]
      = (.msg 200 "Task deleted successfully", [])
    ∧ (TaskResult.err 404 "Task not found or access denied"
        ≠ TaskResult.err 400 "Invalid task ID") :=
  ⟨by decide, by decide, by decide, by decide⟩

/-- C10: update input normalization.  On a successful update a supplied title
is stored trimmed, and a supplied description that is explicitly null, empty
or whitespace-only is stored as null — never as the empty string — and trimmed
otherwise; the stored description is `normalizeDescription` of the supplied
value, the very function createTask applies. -/
theorem update_normalization (uid tid : Int) (idSeg : String)
    (req : UpdateTaskRequest) (now : Int) (store : List Task) (w : Task)
    (hu : uid ≠ 0) (hid : parseIntJS idSeg = some tid)
    (hfound : store.find? (ownedTask uid tid) = some w)
    (hti : ∀ s, req.title = some s → jsTrim s ≠ "") :
    (updateTask (some uid) idSeg req now store).1 = .ok 200 (applyUpdate req now w)
    ∧ (∀ s, req.title = some s → (applyUpdate req now w).title = jsTrim s)
    ∧ (req.description = some none → (applyUpdate req now w).description = none)
    ∧ (∀ s, req.description = some (some s) → jsTrim s = "" →
        (applyUpdate req now w).description = none)
    ∧ (∀ s, req.description = some (some s) → jsTrim s ≠ "" →
        (applyUpdate req now w).description = some (jsTrim s))
    ∧ (∀ d, req.description = some d → (applyUpdate req now w).description ≠ some "")
    ∧ (∀ d, req.description = some d →
        (applyUpdate req now w).description = normalizeDescription d)
    ∧ (∀ (r : CreateTaskRequest) (nid n2 : Int),
        (builtTask uid r nid n2).description = normalizeDescription r.description) := by
  have hempty : emptyProvidedTitle req = false := by
    rcases hre : req.title with _ | s
    · simp [emptyProvidedTitle, hre]
    · simp [emptyProvidedTitle, hre, hti s hre]
  refine ⟨?_, ?_, ?_, ?_, ?_, ?_, ?_, ?_⟩
  · simp [updateTask, falsyUser, beq_iff_eq, hu, hid, hfound, hempty]
  · intro s hs; simp [applyUpdate, hs]
  · intro h; simp [applyUpdate, normalizeDescription, h]
  · intro s hs he; simp [applyUpdate, normalizeDescription, hs, he]
  · intro s hs he; simp [applyUpdate, normalizeDescription, hs, he]
  · intro d hd
    rcases d with _ | s
    · simp [applyUpdate, normalizeDescription, hd]
    · by_cases he : jsTrim s = ""
      · simp [applyUpdate, normalizeDescription, hd, he]
      · simp [applyUpdate, normalizeDescription, hd, he]
  · intro d hd; simp [applyUpdate, hd]
  · intro r nid n2; simp [builtTask]

/-- Witness for C10 at a concrete input: updating with a whitespace-only
description stores null, not the empty string. -/
theorem update_normalization_witness :
    (updateTask (some 1) "7"
        { title := none, description := some (some "   "), status := none } 4
        [{ id := 7, title := "A", description := some "d", status := "PENDING",
           userId := 1, createdAt := 2, updatedAt := 2 }]).1
      = .ok 200 (applyUpdate
          { title := none, description := some (some "   "), status := none } 4
          { id := 7, title := "A", description := some "d", status := "PENDING",
            userId := 1, createdAt := 2, updatedAt := 2 })
    ∧ (applyUpdate { title := none, description := some (some "   "), status := none } 4
        { id := 7, title := "A", description := some "d", status := "PENDING",
          userId := 1, createdAt := 2, updatedAt := 2 }).description = none := by
  have h := update_normalization 1 7 "7"
    { title := none, description := some (some "   "), status := none } 4
    [{ id := 7, title := "A", description := some "d", status := "PENDING",
       userId := 1, createdAt := 2, updatedAt := 2 }]
    { id := 7, title := "A", description := some "d", status := "PENDING",
      userId := 1, createdAt := 2, updatedAt := 2 }
    (by decide) (by decide) (by decide) (by simp)
  exact ⟨h.1, h.2.2.2.1 "   " rfl (by decide)⟩

section AuthHelpers

theorem dropWhile_space_eq_nil_iff (l : List Char) :
    l.dropWhile (fun c => c == ' ') = [] ↔ (l.any (fun c => c != ' ')) = false := by
  induction l with
  | nil => simp
  | cons c cs ih =>
    by_cases h : c = ' '
    · subst h
      simp [List.dropWhile_cons, ih]
    · simp [List.dropWhile_cons, h]

theorem extractTokenChars_eq_none_iff (l : List Char) :
    extractTokenChars l = none ↔ goodChars l = false := by
  by_cases hpre : l.take 7 = bearerChars
  · rcases hdw : (l.drop 7).dropWhile (fun c => c == ' ') with _ | ⟨c, cs⟩
    · have hany := (dropWhile_space_eq_nil_iff (l.drop 7)).mp hdw
      simp [extractTokenChars, goodChars, hpre, hdw, hany]
    · have hany : (l.drop 7).any (fun c => c != ' ') = true := by
        rcases hb : (l.drop 7).any (fun c => c != ' ') with _ | _
        · rw [(dropWhile_space_eq_nil_iff (l.drop 7)).mpr hb] at hdw
          exact absurd hdw (by simp)
        · rfl
      simp [extractTokenChars, goodChars, hpre, hdw, hany]
  · simp [extractTokenChars, goodChars, hpre]

theorem extractBearerToken_eq_none_iff (header : Option String) :
    extractBearerToken header = none ↔ goodAuthHeader header = false := by
  cases header with
  | none => simp [extractBearerToken, goodAuthHeader]
  | some s =>
    simp only [extractBearerToken, goodAuthHeader, Option.map_eq_none']
    exact extractTokenChars_eq_none_iff s.toList

theorem dropWhile_append_all {p : Char → Bool} {l1 l2 : List Char}
    (h : ∀ x ∈ l1, p x = true) : (l1 ++ l2).dropWhile p = l2.dropWhile p := by
  induction l1 with
  | nil => simp
  | cons a as ih =>
    simp only [List.cons_append, List.dropWhile_cons, h a (by simp)]
    exact ih (fun x hx => h x (by simp [hx]))

theorem extractTokenChars_spaces (preL tokL : List Char) (c : Char) (cs : List Char)
    (hpre : ∀ x ∈ preL, x = ' ') (hcons : tokL = c :: cs) (hc : c ≠ ' ') :
    extractTokenChars (bearerChars ++ (preL ++ tokL)) = some tokL := by
  have htake : (bearerChars ++ (preL ++ tokL)).take 7 = bearerChars :=
    List.take_left' rfl
  have hdrop : (bearerChars ++ (preL ++ tokL)).drop 7 = preL ++ tokL :=
    List.drop_left' rfl
  rw [extractTokenChars, if_pos htake, hdrop,
      dropWhile_append_all (fun x hx => by simp [hpre x hx]), hcons,
      List.dropWhile_cons]
  simp [hc, hcons]

end AuthHelpers

/-- C4: auth gate error mapping.  A request whose authorization header is
absent or does not carry the prefix "Bearer " followed by at least one
non-space character is answered 401 with body error "Access token required",
whatever the verifier does (so verify is never consulted); when the header is
acceptable a token is extracted, a verification failure of any kind is
answered 403 with the single body error "Invalid or expired token", and a
successful verification attaches the decoded identity and writes no response. -/
theorem auth_gate_error_mapping (header : Option String)
    (vf : String → Option JWTPayload) :
    (goodAuthHeader header = false →
      ∀ vf2 : String → Option JWTPayload,
        authenticateToken vf2 header = .reject 401 "Access token required")
    ∧ (goodAuthHeader header = true →
      ∃ tok, extractBearerToken header = some tok
        ∧ (vf tok = none →
            authenticateToken vf header = .reject 403 "Invalid or expired token")
        ∧ (∀ p, vf tok = some p → authenticateToken vf header = .accept p)) := by
  constructor
  · intro hbad vf2
    have hex : extractBearerToken header = none :=
      (extractBearerToken_eq_none_iff header).mpr hbad
    simp [authenticateToken, hex]
  · intro hgood
    rcases hex : extractBearerToken header with _ | tok
    · have := (extractBearerToken_eq_none_iff header).mp hex
      rw [hgood] at this
      exact absurd this (by simp)
    · exact ⟨tok, rfl,
        fun hv => by simp [authenticateToken, hex, hv],
        fun p hv => by simp [authenticateToken, hex, hv]⟩

/-- Witness for C4 at concrete inputs: a missing header is rejected with 401
for any verifier, and a well-formed header with a token the verifier rejects
gets 403. -/
theorem auth_gate_error_mapping_witness :
    authenticateToken (fun _ => none) none = .reject 401 "Access token required"
    ∧ authenticateToken (fun _ => none) (some "Bearer tok")
        = .reject 403 "Invalid or expired token" := by
  constructor
  · exact (auth_gate_error_mapping none (fun _ => none)).1 (by decide) (fun _ => none)
  · obtain ⟨tok, -, h403, -⟩ :=
      (auth_gate_error_mapping (some "Bearer tok") (fun _ => none)).2 (by decide)
    exact h403 rfl

/-- C5 (amended): token extraction.  For a header of the form
"Bearer " ++ spaces ++ rest, where rest starts with a non-space character, the
token handed to the verifier is exactly rest: the leading space characters of
the token segment are consumed, while everything from the first non-space
character on — trailing whitespace included — is preserved verbatim. -/
theorem bearer_token_extraction (pre tokStr : String)
    (vf : String → Option JWTPayload)
    (hpre : ∀ c ∈ pre.toList, c = ' ')
    (hhead : tokStr.toList.head? ≠ some ' ')
    (hne : tokStr ≠ "") :
    extractBearerToken (some ("Bearer " ++ pre ++ tokStr)) = some tokStr
    ∧ (∀ p, vf tokStr = some p →
        authenticateToken vf (some ("Bearer " ++ pre ++ tokStr)) = .accept p)
    ∧ (vf tokStr = none →
        authenticateToken vf (some ("Bearer " ++ pre ++ tokStr))
          = .reject 403 "Invalid or expired token") := by
  have hdata : ("Bearer " ++ pre ++ tokStr).toList
      = bearerChars ++ (pre.toList ++ tokStr.toList) := by
    show ("Bearer " ++ pre ++ tokStr).data = bearerChars ++ (pre.data ++ tokStr.data)
    simp [String.data_append, List.append_assoc]
    rfl
  obtain ⟨c, cs, hcons⟩ : ∃ c cs, tokStr.toList = c :: cs := by
    rcases htl : tokStr.toList with _ | ⟨c, cs⟩
    · cases tokStr with
      | mk l =>
        cases htl
        exact absurd rfl hne
    · exact ⟨c, cs, rfl⟩
  have hc : c ≠ ' ' := by
    rw [hcons] at hhead
    simp only [List.head?_cons, ne_eq, Option.some.injEq] at hhead
    exact hhead
  have hmk : String.mk tokStr.toList = tokStr := by
    cases tokStr with
    | mk l => rfl
  have hex : extractBearerToken (some ("Bearer " ++ pre ++ tokStr)) = some tokStr := by
    show (extractTokenChars ("Bearer " ++ pre ++ tokStr).toList).map String.mk = some tokStr
    rw [hdata, extractTokenChars_spaces pre.toList tokStr.toList c cs
          (fun x hx => hpre x hx) hcons hc]
    show some (String.mk tokStr.toList) = some tokStr
    rw [hmk]
  refine ⟨hex, ?_, ?_⟩
  · intro p hv
    simp [authenticateToken, hex, hv]
  · intro hv
    simp [authenticateToken, hex, hv]

/-- Witness for C5 (amended) at a concrete input: "Bearer " followed by two
extra spaces and "x  " hands exactly "x  " to the verifier, which accepts it. -/
theorem bearer_token_extraction_witness :
    authenticateToken
        (fun s => if s = "x  " then some { userId := 1, username := "alice" } else none)
        (some ("Bearer " ++ "  " ++ "x  "))
      = .accept { userId := 1, username := "alice" } :=
  (bearer_token_extraction "  " "x  "
    (fun s => if s = "x  " then some { userId := 1, username := "alice" } else none)
    (by decide) (by decide) (by decide)).2.1
    { userId := 1, username := "alice" } (by decide)

/-- Counterexample for C5 as frozen: for the header "Bearer   tok   " the
segment after the prefix is "  tok   ", but the verifier is handed "tok   " —
the leading spaces are not preserved verbatim, as the repository's
authMiddleware test expects. -/
theorem bearer_token_counterexample :
    ("Bearer   tok   " : String) = "Bearer " ++ "  tok   "
    ∧ extractBearerToken (some "Bearer   tok   ") = some "tok   "
    ∧ ("tok   " : String) ≠ "  tok   "
    ∧ authenticateToken
        (fun s => if s = "  tok   " then some { userId := 1, username := "alice" } else none)
        (some "Bearer   tok   ")
      = .reject 403 "Invalid or expired token" :=
  ⟨by decide, by decide, by decide, by decide⟩

/-- C6: login indistinguishability.  For any two login attempts — one with a
username that is not in the store, one with a stored username whose password
fails hash verification — the two responses are one and the same value:
status 401 with body error "Invalid credentials"; nothing reveals which check
failed. -/
theorem login_indistinguishability (vh : String → String → Bool)
    (iss : JWTPayload → String) (users : List User)
    (un1 pw1 un2 pw2 : String) (u : User)
    (h1 : un1 ≠ "") (h2 : pw1 ≠ "") (h3 : un2 ≠ "") (h4 : pw2 ≠ "")
    (hfind1 : users.find? (fun x => x.username == un1) = none)
    (hfind2 : users.find? (fun x => x.username == un2) = some u)
    (hvh : vh pw2 u.password = false) :
    login vh iss users (some un1) (some pw1) = .err 401 "Invalid credentials"
    ∧ login vh iss users (some un2) (some pw2) = .err 401 "Invalid credentials"
    ∧ login vh iss users (some un1) (some pw1)
        = login vh iss users (some un2) (some pw2) := by
  have e1 : login vh iss users (some un1) (some pw1) = .err 401 "Invalid credentials" := by
    simp [login, h1, h2, hfind1]
  have e2 : login vh iss users (some un2) (some pw2) = .err 401 "Invalid credentials" := by
    simp [login, h3, h4, hfind2, hvh]
  exact ⟨e1, e2, e1.trans e2.symm⟩

/-- Witness for C6 at a concrete input: against a store holding only "alice",
a login as the unknown "bob" and a login as "alice" with a password the hash
verifier rejects produce the same 401 "Invalid credentials" response. -/
theorem login_indistinguishability_witness :
    login (fun _ _ => false) (fun _ => "tok") [{ id := 1, username := "alice", password := "H" }]
        (some "bob") (some "pw1")
      = .err 401 "Invalid credentials"
    ∧ login (fun _ _ => false) (fun _ => "tok") [{ id := 1, username := "alice", password := "H" }]
        (some "alice") (some "pw2")
      = .err 401 "Invalid credentials" := by
  have h := login_indistinguishability (fun _ _ => false) (fun _ => "tok")
    [{ id := 1, username := "alice", password := "H" }] "bob" "pw1" "alice" "pw2"
    { id := 1, username := "alice", password := "H" }
    (by decide) (by decide) (by decide) (by decide) (by decide) (by decide) (by decide)
  exact ⟨h.1, h.2.1⟩

/-- C7 (amended): registration uniqueness.  A register call whose username is
already stored (case-sensitive exact match) and whose password passes the
input validation that runs first (present, non-empty, at least 6 characters)
fails with 400 "Username already exists" and returns the user list unchanged;
a password failing validation is rejected earlier with the corresponding
validation message instead. -/
theorem duplicate_username_conflict (hf : String → String)
    (iss : JWTPayload → String) (newId : Int) (users : List User)
    (un pw : String) (u : User)
    (hun : un ≠ "") (hlen : 6 ≤ pw.length)
    (hfind : users.find? (fun x => x.username == un) = some u) :
    register hf iss newId users (some un) (some pw)
      = (.err 400 "Username already exists", users) := by
  have hpw : pw ≠ "" := by
    intro h
    rw [h] at hlen
    simp at hlen
  have hlt : ¬ pw.length < 6 := by omega
  simp [register, hun, hpw, hlt, hfind]

/-- Witness for C7 at a concrete input: re-registering "alice" with the valid
password "longpw" answers 400 "Username already exists" and leaves the single
stored user untouched. -/
theorem duplicate_username_conflict_witness :
    register (fun s => s) (fun _ => "tok") 2 [{ id := 1, username := "alice", password := "h" }]
        (some "alice") (some "longpw")
      = (.err 400 "Username already exists",
         [{ id := 1, username := "alice", password := "h" }]) :=
  duplicate_username_conflict (fun s => s) (fun _ => "tok") 2
    [{ id := 1, username := "alice", password := "h" }] "alice" "longpw"
    { id := 1, username := "alice", password := "h" }
    (by decide) (by decide) (by decide)

/-- Counterexample for C7 as frozen: with "alice" already registered, a second
registration as "alice" with the 3-character password "123" does not fail with
Conflict — the password length check runs first and answers 400 "Password must
be at least 6 characters long". -/
theorem duplicate_username_counterexample :
    register (fun s => s) (fun _ => "tok") 2 [{ id := 1, username := "alice", password := "h" }]
        (some "alice") (some "123")
      = (.err 400 "Password must be at least 6 characters long",
         [{ id := 1, username := "alice", password := "h" }])
    ∧ ("Password must be at least 6 characters long" : String)
        ≠ "Username already exists" :=
  ⟨by decide, by decide⟩

end TaskApp
